import Mathlib

/-!
Shallow embedding of the refresh / theme-synchronization core of
`canvas_grade_widget.py` (CS487 Canvas grade widget), together with proofs
about the behaviour its specification describes.

Modelled pieces, each traceable to a source symbol:
  * `CanvasAPIWorker.run` / `stop` and the three network helpers
    (`get_user_profile`, `get_canvas_courses`, `get_course_grade`);
  * the scheduler surface of `CanvasGradeWidget`
    (`setup_refresh_timer`, `refresh_data`, `on_courses_fetched`, `on_error`);
  * theme handling (`get_system_theme`, `get_theme_styles` resolution,
    `check_theme_changes`, `apply_theme`, `save_theme_config`);
  * `load_config`.
Network outcomes are inputs of the model; asynchronous setting of the
cancellation flag of the worker is modelled by the index of the first flag read
that observes it set.
-/

namespace CanvasWidget

/-! ## Data model -/

/-- Grade record built by `CanvasAPIWorker.get_course_grade` from the
`grades` object of the enrollment. Scores are modelled as integers: no claim
under study depends on the decimal formatting of the score. -/
structure GradeInfo where
  currentScore : Option Int
  currentGrade : Option String
  finalScore : Option Int
  finalGrade : Option String
deriving Repr, DecidableEq

/-- One course dictionary as returned by the course-list endpoint; the
`gradeInfo` field is the `grade_info` key that `CanvasAPIWorker.run` assigns
into the dictionary (absent, i.e. `none`, until the loop sets it). -/
structure Course where
  id : Nat
  name : String
  termName : Option String
  gradeInfo : Option GradeInfo
deriving Repr, DecidableEq

/-- Profile dictionary built by `CanvasAPIWorker.get_user_profile`. -/
structure Profile where
  name : String
  shortName : String
  avatarUrl : String
  userId : Nat
deriving Repr, DecidableEq

/-! ## The fetch worker (`CanvasAPIWorker`) -/

/-- Cancellation model. `CanvasAPIWorker._stop_requested` is written
asynchronously by `stop()`; `run` reads it at a fixed sequence of points,
numbered in source order:
  0 - the guard at the top of `run` (line `if self._stop_requested: return`);
  1 - the guard on the `profile_fetched` emit;
  2 - the guard on the course branch after `get_canvas_courses` returns;
  3 + i - the guard before the grade sub-call for the i-th course.
`cancelAt = some c` means every read numbered `c` or later observes the flag
set (the flag is never cleared); `none` means the flag is never set. -/
def stopAt (cancelAt : Option Nat) (t : Nat) : Bool :=
  match cancelAt with
  | none => false
  | some c => decide (c ≤ t)

/-- Network requests `run` can issue, recorded in issue order. -/
inductive NetCall where
  | profileCall
  | coursesCall
  | gradeCall (courseId : Nat)
deriving Repr, DecidableEq

/-- Per-course loop of `CanvasAPIWorker.run`: before each grade sub-call the
flag is read (`if self._stop_requested: return`); an early return abandons the
rest of the loop and the `courses_fetched` emit (first component `none`),
otherwise every course gets `grade_info` assigned from `get_course_grade` and
the mutated list is handed back for emission. The `grade` argument gives the
outcome of `get_course_grade` per course id; `t` is the number of the next
flag read. The second component lists the grade network calls issued. -/
def fetchGrades (grade : Nat → Option GradeInfo) (cancelAt : Option Nat) :
    Nat → List Course → Option (List Course) × List NetCall
  | _, [] => (some [], [])
  | t, c :: cs =>
    if stopAt cancelAt t then (none, [])
    else
      let rest := fetchGrades grade cancelAt (t + 1) cs
      (rest.1.map (fun rs => { c with gradeInfo := grade c.id } :: rs),
       NetCall.gradeCall c.id :: rest.2)

/-- Events emitted by one execution of `CanvasAPIWorker.run`, plus the network
calls it issued. Each event field is `none` when the corresponding signal
(`profile_fetched`, `courses_fetched`, `error_occurred`) was not emitted. -/
structure RunResult where
  profileEvent : Option Profile
  coursesEvent : Option (List Course)
  errorEvent : Option String
  calls : List NetCall
deriving Repr, DecidableEq

/-- Python truthiness of the `courses` value in
`if courses and not self._stop_requested`: both `None` and the empty list are
falsy. -/
def coursesTruthy : Option (List Course) → Bool
  | none => false
  | some [] => false
  | some (_ :: _) => true

/-- Model of `CanvasAPIWorker.run`. The outcomes of the network operations are
inputs (`profileRes` for `get_user_profile`, `coursesRes` for
`get_canvas_courses`, `grade` for `get_course_grade`); `cancelAt` places the
asynchronous cancellation (see `stopAt`). Source structure: top guard, profile
fetch and guarded emit, course fetch, then either the grade loop ending in the
`courses_fetched` emit, or the `error_occurred.emit("Failed to fetch courses")`
branch. The profile call and the course-list call are issued whenever the top
guard passes: no flag read guards the course-list call itself. -/
def runWorker (profileRes : Option Profile) (coursesRes : Option (List Course))
    (grade : Nat → Option GradeInfo) (cancelAt : Option Nat) : RunResult :=
  if stopAt cancelAt 0 then ⟨none, none, none, []⟩
  else
    let profileEvent :=
      if profileRes.isSome && !stopAt cancelAt 1 then profileRes else none
    if coursesTruthy coursesRes && !stopAt cancelAt 2 then
      match coursesRes with
      | some cs =>
        let r := fetchGrades grade cancelAt 3 cs
        ⟨profileEvent, r.1, none, NetCall.profileCall :: NetCall.coursesCall :: r.2⟩
      | none =>
        ⟨profileEvent, none, none, [NetCall.profileCall, NetCall.coursesCall]⟩
    else
      ⟨profileEvent, none, some "Failed to fetch courses",
       [NetCall.profileCall, NetCall.coursesCall]⟩

/-- Outcome of the HTTP request inside `get_canvas_courses`: a response with a
status code and decoded JSON list, or a raised exception (timeout, connection
error, ...). -/
inductive HttpResult where
  | response (code : Nat) (body : List Course)
  | exn
deriving Repr, DecidableEq

/-- Model of `CanvasAPIWorker.get_canvas_courses`: only a 200 response returns
the decoded list; any other status falls through and any exception is
swallowed (`except Exception: pass`), both ending in `return None`. -/
def get_canvas_courses : HttpResult → Option (List Course)
  | HttpResult.response code body => if code = 200 then some body else none
  | HttpResult.exn => none

/-- Text that `CanvasGradeWidget.on_error` writes into the status label for an
`error_occurred` payload. -/
def errorStatusText (msg : String) : String := "Error: " ++ msg

/-! ## The refresh scheduler surface of `CanvasGradeWidget`

State visible to the overlap question: whether the refresh button is enabled
and how many worker threads are currently running. -/

structure SchedState where
  refreshEnabled : Bool
  runningWorkers : Nat
deriving Repr, DecidableEq

/-- UI-thread events that drive the scheduler: a `refresh_timer` timeout, a
click on the refresh button, and a worker finishing (its `courses_fetched` or
`error_occurred` handler runs and its thread exits). -/
inductive SchedEvent where
  | tick
  | click
  | workerDone
deriving Repr, DecidableEq

/-- Model of `CanvasGradeWidget.refresh_data` (the theme check it performs
first is modelled separately, see `checkThemeChanges`): with no configuration
it only sets a status text and returns; otherwise it disables the refresh
button and unconditionally constructs and starts a new `CanvasAPIWorker` —
the source never checks whether `self.api_worker` is still running. -/
def refreshData (configured : Bool) (s : SchedState) : SchedState :=
  if configured then ⟨false, s.runningWorkers + 1⟩ else s

/-- One UI-thread event step. `refresh_timer.timeout` is connected straight to
`refresh_data`, so a tick always runs it; the refresh button runs it only
while enabled (a disabled `QPushButton` emits no `clicked` signal);
`on_courses_fetched` / `on_error` re-enable the button, and the finished
thread of the finished worker stops. -/
def schedStep (configured : Bool) (s : SchedState) : SchedEvent → SchedState
  | SchedEvent.tick => refreshData configured s
  | SchedEvent.click => if s.refreshEnabled then refreshData configured s else s
  | SchedEvent.workerDone => ⟨true, s.runningWorkers - 1⟩

/-- Folding a sequence of events through `schedStep`. -/
def schedRun (configured : Bool) (s : SchedState) (evs : List SchedEvent) :
    SchedState :=
  evs.foldl (schedStep configured) s

/-! ## Theme handling -/

/-- Keys of the `THEMES` dictionary, in source order. Only `"auto"` carries no
color entries; it stands for deferring to the system appearance. -/
def themeKeys : List String := ["auto", "light", "dark", "nord"]

/-- Model of `get_system_theme`: with a `QApplication` present, the window
background lightness decides dark (below 128) versus light; with no
application instance, or on an exception, it falls back to light. -/
def getSystemTheme (bgLightness : Option Nat) : String :=
  match bgLightness with
  | none => "light"
  | some l => if l < 128 then "dark" else "light"

/-- Theme-name resolution at the top of `get_theme_styles` (the remainder of
that function builds the CSS payload from `THEMES[theme_name]`): `"auto"` is
first replaced by the detected system theme, then any name that is not a
`THEMES` key, or is still `"auto"`, falls back to `"light"`. -/
def resolveThemeName (name : String) (system : String) : String :=
  let n := if name = "auto" then system else name
  if !themeKeys.contains n || n = "auto" then "light" else n

/-- Model of `CanvasGradeWidget.apply_theme`: it reads the configured theme
from `config.py` (`cfg`), skips everything when that equals
`self.current_applied_theme` (initially Python `None`, hence `Option String`),
and otherwise pushes the computed stylesheet to the widget once and records
the configured theme as applied. Returns the new applied value and the number
of style pushes performed. -/
def applyTheme (cfg : String) (applied : Option String) : Option String × Nat :=
  if applied = some cfg then (applied, 0) else (some cfg, 1)

/-- Model of `CanvasGradeWidget.check_theme_changes`: it reads the configured
theme and calls `apply_theme` only when it differs from the applied one. -/
def checkThemeChanges (cfg : String) (applied : Option String) :
    Option String × Nat :=
  if some cfg ≠ applied then applyTheme cfg applied else (applied, 0)

/-- Prefix test on character lists: the model of Python `str.startswith`
(`String.startsWith` itself does not reduce definitionally). -/
def strStartsWith (s pat : String) : Bool := List.isPrefixOf pat.data s.data

/-- Substring search on character lists: does `pat` occur contiguously in
`s`? -/
def hasSubstr (pat : List Char) : List Char → Bool
  | [] => List.isPrefixOf pat []
  | c :: tl => List.isPrefixOf pat (c :: tl) || hasSubstr pat tl

/-- Python substring containment (the `in` test on `config_content`) on the
character lists of the strings. The needle `"THEME = "` holds no newline, so
testing it line by line is equivalent to testing the joined file content. -/
def strContains (s pat : String) : Bool := hasSubstr pat.data s.data

/-- Replacement line `THEME = "{theme}"` written by `save_theme_config`. -/
def themeLine (theme : String) : String := "THEME = \"" ++ theme ++ "\""

/-- Line-rewriting loop of `save_theme_config`: replace the first line that
starts with `THEME = ` and keep everything after it (the loop breaks). -/
def updateThemeLines (theme : String) : List String → List String
  | [] => []
  | l :: ls =>
    if strStartsWith l "THEME = " then themeLine theme :: ls
    else l :: updateThemeLines theme ls

/-- Model of `save_theme_config` on the file content represented as its list
of newline-separated lines: when the substring `THEME = ` occurs anywhere in
the content the rewriting loop runs; otherwise the string
string `THEME = "..."` is appended with a newline on each side, which on lines appends the theme line
followed by a final empty line. -/
def save_theme_config (theme : String) (lines : List String) : List String :=
  if lines.any (fun l => strContains l "THEME = ") then updateThemeLines theme lines
  else lines ++ [themeLine theme, ""]

/-! ## Course display (`CourseWidget.create_grade_label`) -/

/-- Shape of the grade text `CourseWidget.create_grade_label` builds. -/
inductive GradeDisplay where
  | notAvailable
  | currentOf (score : Int) (letter : Option String)
  | finalOf (score : Int) (letter : Option String)
  | noGradeYet
deriving Repr, DecidableEq

/-- Branch structure of `CourseWidget.create_grade_label`: a missing
`grade_info` renders "Grade: Not available"; otherwise `current_score` takes
precedence over `final_score`; with both scores absent it renders
"Grade: No grade yet". -/
def gradeDisplay : Option GradeInfo → GradeDisplay
  | none => GradeDisplay.notAvailable
  | some gi =>
    match gi.currentScore with
    | some s => GradeDisplay.currentOf s gi.currentGrade
    | none =>
      match gi.finalScore with
      | some s => GradeDisplay.finalOf s gi.finalGrade
      | none => GradeDisplay.noGradeYet

/-! ## Configuration loading (`load_config`) -/

def apiTokenPlaceholder : String := "your_api_token_here"

def baseUrlPlaceholder : String := "https://your-school.instructure.com"

/-- Model of `load_config`. `cfg` is the `(CANVAS_BASE_URL, API_TOKEN)` pair
exported by `config.py`, or `none` when importing the module raises
`ImportError`. A stored pair whose token or URL equals the corresponding
placeholder sentinel is reported as unconfigured (`None, None`). -/
def load_config (cfg : Option (String × String)) : Option (String × String) :=
  match cfg with
  | none => none
  | some (url, tok) =>
    if tok = apiTokenPlaceholder ∨ url = baseUrlPlaceholder then none
    else some (url, tok)

/-! ## Concrete sample data used by counterexamples and witnesses -/

def sampleProfile : Profile := ⟨"Student", "S", "", 1⟩

def sampleCourse : Course := ⟨101, "CS 487", some "Fall 2025", none⟩

def sampleGradeA : GradeInfo := ⟨some 92, some "A", some 91, some "A"⟩

def sampleCourses : List Course :=
  [⟨1, "CS 487", some "Fall 2025", none⟩,
   ⟨2, "CS 401", some "Fall 2025", none⟩,
   ⟨3, "CS 458", some "Fall 2025", none⟩]

/-- Grade outcomes for `sampleCourses`: the sub-call fails for course 2 and
succeeds elsewhere. -/
def sampleGradeFn : Nat → Option GradeInfo :=
  fun courseId => if courseId = 2 then none else some sampleGradeA

/-! ## Supporting lemmas -/

/-- With the flag never set, the grade loop completes: every course gets its
`grade_info` assigned and the whole list is returned for emission. -/
theorem fetchGrades_no_cancel (grade : Nat → Option GradeInfo) :
    ∀ (cs : List Course) (t : Nat),
      (fetchGrades grade none t cs).1
        = some (cs.map fun c => { c with gradeInfo := grade c.id }) := by
  intro cs
  induction cs with
  | nil => intro t; rfl
  | cons a as ih =>
    intro t
    simp [fetchGrades, stopAt, ih (t + 1)]

/-- If the flag becomes set early enough that some remaining pre-grade-call
read observes it, the grade loop aborts and nothing is emitted. -/
theorem fetchGrades_cancelled (grade : Nat → Option GradeInfo) (c : Nat) :
    ∀ (cs : List Course) (t : Nat), cs ≠ [] → c < t + cs.length →
      (fetchGrades grade (some c) t cs).1 = none := by
  intro cs
  induction cs with
  | nil => intro t h _; exact absurd rfl h
  | cons a as ih =>
    intro t _ hlt
    by_cases hc : c ≤ t
    · simp [fetchGrades, stopAt, hc]
    · push_neg at hc
      have has : as ≠ [] := by
        intro he
        subst he
        simp at hlt
        omega
      have hlt2 : c < (t + 1) + as.length := by
        simp at hlt
        omega
      simp [fetchGrades, stopAt, Nat.not_le.mpr hc, ih (t + 1) has hlt2]

/-! ## Claim C1 -/

/-- C1 counterexample: from the idle configured state, a timer tick starts a
worker and a second tick arriving while that worker is still running starts
another one — after two ticks two workers are running at once, so the claim
that a tick arriving during an active cycle is dropped is false. -/
theorem c1_counterexample :
    (schedRun true ⟨true, 0⟩ [SchedEvent.tick, SchedEvent.tick]).runningWorkers
      = 2 := by
  decide

/-- C1 (amended): a manual trigger arriving while a cycle is active is dropped
— the refresh button is disabled, so the click never reaches `refresh_data` —
but a scheduled timer tick is not guarded: in the configured widget it always
starts a fresh worker, so a tick during an active cycle yields a second
concurrently running worker. -/
theorem c1_amended (configured : Bool) (s : SchedState)
    (h : s.refreshEnabled = false) :
    schedStep configured s SchedEvent.click = s ∧
    (schedStep true s SchedEvent.tick).runningWorkers = s.runningWorkers + 1 := by
  constructor
  · simp [schedStep, h]
  · simp [schedStep, refreshData]

theorem c1_amended_witness :
    schedStep true ⟨false, 1⟩ SchedEvent.click = ⟨false, 1⟩ ∧
    (schedStep true ⟨false, 1⟩ SchedEvent.tick).runningWorkers = 1 + 1 :=
  c1_amended true ⟨false, 1⟩ rfl

/-! ## Claim C4 -/

/-- C4 counterexample: a course-list call failing with HTTP 401 and one
failing with a transport exception (timeout) surface the same failure event
payload, hence the same status text — the two failure modes are not
distinguishable at the UI sink. -/
theorem c4_counterexample :
    (runWorker none (get_canvas_courses (HttpResult.response 401 []))
        (fun _ => none) none).errorEvent = some "Failed to fetch courses" ∧
    (runWorker none (get_canvas_courses HttpResult.exn)
        (fun _ => none) none).errorEvent = some "Failed to fetch courses" ∧
    errorStatusText "Failed to fetch courses" = "Error: Failed to fetch courses" := by
  decide

/-- C4 (amended): every non-200 course-list response and every transport
exception produce the identical failure event "Failed to fetch courses", so
the surfaced status text is the same for an auth failure and a timeout. -/
theorem c4_amended (p : Option Profile) (grade : Nat → Option GradeInfo)
    (code : Nat) (body : List Course) (h : code ≠ 200) :
    (runWorker p (get_canvas_courses (HttpResult.response code body))
        grade none).errorEvent = some "Failed to fetch courses" ∧
    (runWorker p (get_canvas_courses HttpResult.exn)
        grade none).errorEvent = some "Failed to fetch courses" := by
  constructor
  · simp [runWorker, get_canvas_courses, h, coursesTruthy, stopAt]
  · simp [runWorker, get_canvas_courses, coursesTruthy, stopAt]

theorem c4_amended_witness :
    (runWorker (some sampleProfile)
        (get_canvas_courses (HttpResult.response 401 []))
        sampleGradeFn none).errorEvent = some "Failed to fetch courses" ∧
    (runWorker (some sampleProfile) (get_canvas_courses HttpResult.exn)
        sampleGradeFn none).errorEvent = some "Failed to fetch courses" :=
  c4_amended (some sampleProfile) sampleGradeFn 401 [] (by decide)

/-! ## Claim C5 -/

/-- C5: when the profile fetch fails (`get_user_profile` returns `None`) but
the course fetch succeeds with a non-empty list and no cancellation occurs, no
profile event and no error event is emitted, and the course snapshot with all
courses (grades attached) is emitted unaffected. -/
theorem c5_profile_failure_swallowed (grade : Nat → Option GradeInfo)
    (a : Course) (as : List Course) :
    (runWorker none (some (a :: as)) grade none).profileEvent = none ∧
    (runWorker none (some (a :: as)) grade none).errorEvent = none ∧
    (runWorker none (some (a :: as)) grade none).coursesEvent
      = some ((a :: as).map fun c => { c with gradeInfo := grade c.id }) := by
  refine ⟨?_, ?_, ?_⟩ <;>
    simp [runWorker, coursesTruthy, stopAt, fetchGrades_no_cancel]

/-! ## Claim C10 -/

/-- C10: a course-list call that succeeds with HTTP 200 but an empty JSON list
makes the worker emit the failure event "Failed to fetch courses" and no
course snapshot — exactly the events of a genuinely failed fetch, so an empty
enrolment is indistinguishable from a failed fetch at the public interface. -/
theorem c10_empty_courses (p : Option Profile) (grade : Nat → Option GradeInfo) :
    (runWorker p (get_canvas_courses (HttpResult.response 200 []))
        grade none).coursesEvent = none ∧
    (runWorker p (get_canvas_courses (HttpResult.response 200 []))
        grade none).errorEvent = some "Failed to fetch courses" ∧
    (runWorker p (get_canvas_courses (HttpResult.response 200 []))
        grade none).errorEvent
      = (runWorker p (get_canvas_courses HttpResult.exn)
        grade none).errorEvent := by
  refine ⟨?_, ?_, ?_⟩ <;>
    simp [runWorker, get_canvas_courses, coursesTruthy, stopAt]

/-! ## Claim C2 -/

/-- C2 counterexample: cancellation observed at read 2 (set after
`get_canvas_courses` returned, before the branch guard) does not end the run
silently — the worker emits the error event "Failed to fetch courses"; and
with cancellation observed already at read 1, the course-list network call is
still issued, so the flag is not checked before each network call starts. -/
theorem c2_counterexample :
    stopAt (some 2) 2 = true ∧
    (runWorker (some sampleProfile) (some [sampleCourse])
        (fun _ => none) (some 2)).errorEvent = some "Failed to fetch courses" ∧
    stopAt (some 1) 1 = true ∧
    NetCall.coursesCall ∈ (runWorker (some sampleProfile) (some [sampleCourse])
        (fun _ => none) (some 1)).calls := by
  decide

/-- C2 (amended): cancellation that is first observed at one of the
pre-grade-call reads (set after the course branch was entered, i.e. `3 ≤ c`,
and early enough that a remaining grade read sees it, `c ≤ |cs| + 2`) makes
the worker return without emitting a courses-updated event and without any
error event. Cancellation observed at the post-course-list read instead
emits the error event "Failed to fetch courses" (see the counterexample),
and the course-list call itself is not guarded by a flag read. -/
theorem c2_amended (p : Option Profile) (grade : Nat → Option GradeInfo)
    (cs : List Course) (c : Nat) (h3 : 3 ≤ c) (hub : c ≤ cs.length + 2) :
    (runWorker p (some cs) grade (some c)).coursesEvent = none ∧
    (runWorker p (some cs) grade (some c)).errorEvent = none := by
  have hcs : cs ≠ [] := by
    intro he
    subst he
    simp at hub
    omega
  obtain ⟨a, as, rfl⟩ := List.exists_cons_of_ne_nil hcs
  have h0 : stopAt (some c) 0 = false := by
    simp [stopAt]
    omega
  have h2 : stopAt (some c) 2 = false := by
    simp [stopAt]
    omega
  have hfg : (fetchGrades grade (some c) 3 (a :: as)).1 = none := by
    refine fetchGrades_cancelled grade c (a :: as) 3 (by simp) ?_
    simp at hub ⊢
    omega
  simp [runWorker, h0, h2, coursesTruthy, hfg]

theorem c2_amended_witness :
    (runWorker (some sampleProfile) (some [sampleCourse])
        sampleGradeFn (some 3)).coursesEvent = none ∧
    (runWorker (some sampleProfile) (some [sampleCourse])
        sampleGradeFn (some 3)).errorEvent = none :=
  c2_amended (some sampleProfile) sampleGradeFn [sampleCourse] 3 (by decide)
    (by decide)

/-! ## Claim C3 -/

/-- C3: with no cancellation, a fetched list of N courses whose grade sub-call
fails for exactly the j-th course still emits one courses-updated event with
all N courses in order; no error event is emitted (the cycle completes), the
failed course renders "Grade: Not available", and every other course renders
its current-score grade. -/
theorem c3_one_grade_failure (p : Option Profile)
    (grade : Nat → Option GradeInfo) (cs : List Course) (j : Nat)
    (hj : j < cs.length)
    (hfail : grade ((cs.get ⟨j, hj⟩).id) = none)
    (hok : ∀ i (hi : i < cs.length), i ≠ j →
      ∃ gi, grade ((cs.get ⟨i, hi⟩).id) = some gi ∧
        gi.currentScore.isSome = true) :
    ∃ out : List Course,
      (runWorker p (some cs) grade none).coursesEvent = some out ∧
      (runWorker p (some cs) grade none).errorEvent = none ∧
      out.length = cs.length ∧
      (out.get? j).map (fun c => gradeDisplay c.gradeInfo)
        = some GradeDisplay.notAvailable ∧
      ∀ i, i < cs.length → i ≠ j →
        ∃ s l, (out.get? i).map (fun c => gradeDisplay c.gradeInfo)
          = some (GradeDisplay.currentOf s l) := by
  have hcs : cs ≠ [] := by
    intro he
    subst he
    simp at hj
  obtain ⟨a, as, rfl⟩ := List.exists_cons_of_ne_nil hcs
  refine ⟨(a :: as).map (fun c => { c with gradeInfo := grade c.id }),
    ?_, ?_, ?_, ?_, ?_⟩
  · simp [runWorker, coursesTruthy, stopAt, fetchGrades_no_cancel]
  · simp [runWorker, coursesTruthy, stopAt, fetchGrades_no_cancel]
  · simp
  · rw [List.get?_map, List.get?_eq_get hj]
    rw [List.get_eq_getElem] at hfail
    simp [hfail, gradeDisplay]
  · intro i hi hne
    obtain ⟨gi, hgi, hscore⟩ := hok i hi hne
    obtain ⟨s, hs⟩ := Option.isSome_iff_exists.mp hscore
    refine ⟨s, gi.currentGrade, ?_⟩
    rw [List.get?_map, List.get?_eq_get hi]
    rw [List.get_eq_getElem] at hgi
    simp [hgi, gradeDisplay, hs]

theorem c3_witness :
    ∃ out : List Course,
      (runWorker none (some sampleCourses) sampleGradeFn none).coursesEvent
        = some out ∧
      (runWorker none (some sampleCourses) sampleGradeFn none).errorEvent
        = none ∧
      out.length = sampleCourses.length ∧
      (out.get? 1).map (fun c => gradeDisplay c.gradeInfo)
        = some GradeDisplay.notAvailable ∧
      ∀ i, i < sampleCourses.length → i ≠ 1 →
        ∃ s l, (out.get? i).map (fun c => gradeDisplay c.gradeInfo)
          = some (GradeDisplay.currentOf s l) :=
  c3_one_grade_failure none sampleGradeFn sampleCourses 1 (by decide)
    (by decide)
    (by
      intro i hi hne
      have hi3 : i < 3 := by simpa [sampleCourses] using hi
      interval_cases i
      · exact ⟨sampleGradeA, rfl, rfl⟩
      · exact absurd rfl hne
      · exact ⟨sampleGradeA, rfl, rfl⟩)

/-! ## Claim C6 -/

/-- C6: with a pending theme change (the applied identifier differs from the
configured one) and no configuration change between the calls, the first
`check_theme_changes` pushes the style exactly once and records the configured
theme as applied; the second call finds the identifiers equal, pushes nothing
and leaves the applied value unchanged — one push in total. -/
theorem c6_theme_idempotent (cfg : String) (applied : Option String)
    (h : applied ≠ some cfg) :
    (checkThemeChanges cfg applied).2 = 1 ∧
    (checkThemeChanges cfg (checkThemeChanges cfg applied).1).2 = 0 ∧
    (checkThemeChanges cfg (checkThemeChanges cfg applied).1).1
      = (checkThemeChanges cfg applied).1 ∧
    (checkThemeChanges cfg applied).2
      + (checkThemeChanges cfg (checkThemeChanges cfg applied).1).2 = 1 := by
  have h2 : some cfg ≠ applied := fun he => h he.symm
  simp [checkThemeChanges, applyTheme, h2, h]

theorem c6_witness :
    (checkThemeChanges "dark" (some "light")).2 = 1 ∧
    (checkThemeChanges "dark" (checkThemeChanges "dark" (some "light")).1).2
      = 0 ∧
    (checkThemeChanges "dark" (checkThemeChanges "dark" (some "light")).1).1
      = (checkThemeChanges "dark" (some "light")).1 ∧
    (checkThemeChanges "dark" (some "light")).2
      + (checkThemeChanges "dark"
          (checkThemeChanges "dark" (some "light")).1).2 = 1 :=
  c6_theme_idempotent "dark" (some "light") (by decide)

/-! ## Claim C7 -/

/-- C7: the style-resolution fallback chain. A known non-"auto" theme resolves
to itself; "auto" resolves to the detected system appearance; an unknown name
resolves to the default "light"; and the resolved name is always a concrete
`THEMES` key (a member, and never "auto", whose entry carries no colors).
The final conjunct records that the detected system appearance is always
"light" or "dark". -/
theorem c7_theme_fallback (name system : String)
    (hsys : system = "light" ∨ system = "dark") :
    (name ∈ themeKeys → name ≠ "auto" →
      resolveThemeName name system = name) ∧
    (name = "auto" → resolveThemeName name system = system) ∧
    (name ∉ themeKeys → resolveThemeName name system = "light") ∧
    resolveThemeName name system ∈ themeKeys ∧
    resolveThemeName name system ≠ "auto" ∧
    (∀ l : Option Nat, getSystemTheme l = "light" ∨ getSystemTheme l = "dark") := by
  have hsm : system ∈ themeKeys := by
    rcases hsys with h | h <;> simp [h, themeKeys]
  have hsysAuto : ¬(system = "auto") := by
    rcases hsys with h | h <;> simp [h]
  refine ⟨?_, ?_, ?_, ?_, ?_, ?_⟩
  · intro hmem hne
    simp [resolveThemeName, hne, hmem]
  · intro hauto
    subst hauto
    simp [resolveThemeName, hsysAuto, hsm]
  · intro hmem
    have hne : ¬(name = "auto") := by
      intro he
      subst he
      exact hmem (by simp [themeKeys])
    simp [resolveThemeName, hne, hmem]
  · by_cases hauto : name = "auto"
    · subst hauto
      simp [resolveThemeName, hsysAuto, hsm]
    · by_cases hmem : name ∈ themeKeys
      · simpa [resolveThemeName, hauto, hmem] using hmem
      · have hres : resolveThemeName name system = "light" := by
          simp [resolveThemeName, hauto, hmem]
        rw [hres]
        simp [themeKeys]
  · by_cases hauto : name = "auto"
    · subst hauto
      simp [resolveThemeName, hsysAuto, hsm]
    · by_cases hmem : name ∈ themeKeys
      · simpa [resolveThemeName, hauto, hmem] using hauto
      · simp [resolveThemeName, hauto, hmem]
  · intro l
    rcases l with _ | v
    · exact Or.inl rfl
    · by_cases hv : v < 128
      · exact Or.inr (by simp [getSystemTheme, hv])
      · exact Or.inl (by simp [getSystemTheme, hv])

theorem c7_witness :
    ("nord" ∈ themeKeys → "nord" ≠ "auto" →
      resolveThemeName "nord" "light" = "nord") ∧
    ("nord" = "auto" → resolveThemeName "nord" "light" = "light") ∧
    ("nord" ∉ themeKeys → resolveThemeName "nord" "light" = "light") ∧
    resolveThemeName "nord" "light" ∈ themeKeys ∧
    resolveThemeName "nord" "light" ≠ "auto" ∧
    (∀ l : Option Nat, getSystemTheme l = "light" ∨ getSystemTheme l = "dark") :=
  c7_theme_fallback "nord" "light" (Or.inl rfl)

/-! ## Claim C9 -/

/-- C9: `load_config` reports unconfigured (`None, None`) exactly when the
config module is absent, the stored token equals the placeholder
"your_api_token_here", or the stored URL equals the placeholder
"https://your-school.instructure.com"; any other stored pair is returned
as is. -/
theorem c9_load_config (cfg : Option (String × String)) :
    (load_config cfg = none ↔
      cfg = none ∨ ∃ u t, cfg = some (u, t) ∧
        (t = apiTokenPlaceholder ∨ u = baseUrlPlaceholder)) ∧
    ∀ u t, t ≠ apiTokenPlaceholder → u ≠ baseUrlPlaceholder →
      load_config (some (u, t)) = some (u, t) := by
  constructor
  · match cfg with
    | none => simp [load_config]
    | some (u, t) =>
      by_cases hc : t = apiTokenPlaceholder ∨ u = baseUrlPlaceholder
      · simp [load_config, hc]
        exact ⟨u, t, ⟨rfl, rfl⟩, hc⟩
      · push_neg at hc
        simp [load_config, hc.1, hc.2]
  · intro u t h1 h2
    simp [load_config, h1, h2]

theorem c9_witness :
    load_config (some ("https://school.example.edu", "tok123"))
      = some ("https://school.example.edu", "tok123") :=
  (c9_load_config (some ("https://school.example.edu", "tok123"))).2
    "https://school.example.edu" "tok123" (by decide) (by decide)

/-! ## Claim C8 -/

/-- When no line starts with `THEME = `, the rewriting loop is the identity. -/
theorem updateThemeLines_no_match (theme : String) :
    ∀ lines : List String,
      (∀ l ∈ lines, strStartsWith l "THEME = " = false) →
      updateThemeLines theme lines = lines := by
  intro lines
  induction lines with
  | nil => intro _; rfl
  | cons a as ih =>
    intro h
    have ha := h a (List.mem_cons_self a as)
    simp [updateThemeLines, ha,
      ih (fun l hl => h l (List.mem_cons_of_mem a hl))]

/-- Frame property of the rewriting loop: at every position the output holds
either the original line or the freshly written theme line. -/
theorem updateThemeLines_get? (theme : String) :
    ∀ (lines : List String) (i : Nat),
      (updateThemeLines theme lines).get? i = lines.get? i ∨
      (updateThemeLines theme lines).get? i = some (themeLine theme) := by
  intro lines
  induction lines with
  | nil => intro i; left; rfl
  | cons a as ih =>
    intro i
    by_cases ha : strStartsWith a "THEME = " = true
    · match i with
      | 0 => right; simp [updateThemeLines, ha]
      | Nat.succ k => left; simp [updateThemeLines, ha]
    · simp only [Bool.not_eq_true] at ha
      match i with
      | 0 => left; simp [updateThemeLines, ha]
      | Nat.succ k =>
        rcases ih k with h | h
        · left
          simpa [updateThemeLines, ha] using h
        · right
          simpa [updateThemeLines, ha] using h

/-- When some line does start with `THEME = `, the loop writes the theme
line. -/
theorem themeLine_mem_updateThemeLines (theme : String) :
    ∀ lines : List String,
      (∃ l ∈ lines, strStartsWith l "THEME = " = true) →
      themeLine theme ∈ updateThemeLines theme lines := by
  intro lines
  induction lines with
  | nil => intro h; simp at h
  | cons a as ih =>
    intro h
    by_cases ha : strStartsWith a "THEME = " = true
    · simp [updateThemeLines, ha]
    · simp only [Bool.not_eq_true] at ha
      rcases h with ⟨l, hl, hsw⟩
      rcases List.mem_cons.mp hl with rfl | hl2
      · rw [ha] at hsw
        exact absurd hsw (by simp)
      · simp only [updateThemeLines, ha, Bool.false_eq_true, if_false]
        exact List.mem_cons_of_mem a (ih ⟨l, hl2, hsw⟩)

/-- C8 counterexample: a config whose only line is the commented-out entry
`# THEME = "light"` contains the substring `THEME = `, so the rewrite branch
runs, but no line starts with `THEME = `, so nothing is rewritten and —
because the substring check already succeeded — nothing is appended either:
the saved content has no THEME line at all, refuting "rewrites the THEME
line (or appends one if absent)". -/
theorem c8_counterexample :
    save_theme_config "dark" ["# THEME = \"light\""]
      = ["# THEME = \"light\""] ∧
    themeLine "dark" ∉ save_theme_config "dark" ["# THEME = \"light\""] ∧
    ∀ l ∈ save_theme_config "dark" ["# THEME = \"light\""],
      strStartsWith l "THEME = " = false := by
  refine ⟨by decide, by decide, by decide⟩

/-- C8 (amended): saving a theme never changes any line other than the first
line starting with `THEME = `: if the substring `THEME = ` occurs nowhere, the
theme line and a trailing empty line are appended after the unchanged content;
if a line starting with `THEME = ` exists, the theme line is written; if the
substring occurs only inside lines not starting with `THEME = ` (e.g. a
commented-out entry), the content is written back completely unchanged and no
theme line is added; and in every case each original position holds either its
original line or the new theme line. -/
theorem c8_amended (theme : String) (lines : List String) :
    ((lines.any fun l => strContains l "THEME = ") = false →
      save_theme_config theme lines = lines ++ [themeLine theme, ""]) ∧
    ((lines.any fun l => strContains l "THEME = ") = true →
      (∀ l ∈ lines, strStartsWith l "THEME = " = false) →
      save_theme_config theme lines = lines) ∧
    ((lines.any fun l => strContains l "THEME = ") = true →
      (∃ l ∈ lines, strStartsWith l "THEME = " = true) →
      themeLine theme ∈ save_theme_config theme lines) ∧
    ∀ i, i < lines.length →
      (save_theme_config theme lines).get? i = lines.get? i ∨
      (save_theme_config theme lines).get? i = some (themeLine theme) := by
  refine ⟨?_, ?_, ?_, ?_⟩
  · intro h
    simp [save_theme_config, h]
  · intro h hns
    simp [save_theme_config, h, updateThemeLines_no_match theme lines hns]
  · intro h hex
    simp only [save_theme_config, h, if_true]
    exact themeLine_mem_updateThemeLines theme lines hex
  · intro i hi
    by_cases h : (lines.any fun l => strContains l "THEME = ") = true
    · simpa [save_theme_config, h] using updateThemeLines_get? theme lines i
    · simp only [Bool.not_eq_true] at h
      left
      simp only [save_theme_config, h, Bool.false_eq_true, if_false]
      exact List.get?_append hi

theorem c8_amended_witness :
    themeLine "dark"
      ∈ save_theme_config "dark" ["CANVAS = \"u\"", "THEME = \"light\""] :=
  (c8_amended "dark" ["CANVAS = \"u\"", "THEME = \"light\""]).2.2.1
    (by decide) (by decide)

end CanvasWidget
